import Mathlib

/-!
Verification of the client-side session and request orchestration layer of
the medical-analytics dashboard (streamlit_app.py), shallowly embedded in
Lean 4.  Python session state becomes an explicit record, HTTP calls become
parameters describing the outcome of the underlying transport, datetimes
become integer timestamps in seconds, JSON numbers become rationals, and
the streamlit rerun control-flow exception is modelled as a signal flag in
the dispatcher output.
-/

namespace MedicalAnalytics

/-- The streamlit session state keys initialised by init_session_state:
authenticated, user_role, access_token, chat_history, username, login_time,
current_filters.  login_time (a datetime) is an integer timestamp in
seconds; chat_history is a list of (speaker, text) pairs; current_filters
is the last filter dictionary stored, kept as key/value pairs. -/
structure SessionState where
  authenticated : Bool
  user_role : Option String
  access_token : Option String
  chat_history : List (String × String)
  username : Option String
  login_time : Option Int
  current_filters : List (String × Option String)
deriving DecidableEq, Repr

/-- init_session_state on a fresh session: every key missing, so every key
is set to its initial value (False / None / [] / empty dict). -/
def init_session_state : SessionState :=
  { authenticated := false
    user_role := none
    access_token := none
    chat_history := []
    username := none
    login_time := none
    current_filters := [] }

/-- Python truthiness of the access_token slot: None and the empty string
are falsy, any other string is truthy. -/
def tokenTruthy : Option String → Bool
  | none => false
  | some t => t ≠ ""

/-- is_token_valid: returns False when access_token is falsy (None or
empty) or login_time is None; returns False when now - login_time exceeds
23 hours (strictly); otherwise True.  A datetime is always truthy in
Python, so login_time is falsy exactly when it is None. -/
def is_token_valid (s : SessionState) (now : Int) : Bool :=
  match s.login_time with
  | none => false
  | some lt =>
    if ¬ tokenTruthy s.access_token then false
    else if now - lt > 23 * 3600 then false
    else true

/-- An HTTP response, proxied by its status code (the JSON payload is
carried separately where a claim needs it). -/
structure HttpResponse where
  status_code : Nat
deriving DecidableEq, Repr

/-- Outcome of the underlying requests.get / requests.post call: either a
response came back or the transport raised ConnectionError. -/
inductive HttpOutcome where
  | resp (r : HttpResponse)
  | connError
deriving DecidableEq, Repr

/-- What a dispatcher call produces when it does not raise: the session
state afterwards, the value returned to the caller (a response or None),
the st.error message emitted (if any), and whether st.rerun was signalled
(st.rerun raises a control-flow exception that ends the render cycle; it
is modelled as a flag, and the return value the caller would never see is
kept as written in the source, namely None). -/
structure DispatchOut where
  state : SessionState
  ret : Option HttpResponse
  msg : Option String
  rerunSignal : Bool
deriving DecidableEq, Repr

/-- make_authenticated_request(endpoint, method, data): for method "GET"
or "POST" performs the call; on a 401 response it clears authenticated,
access_token, user_role, username and login_time, emits the session
expired error, signals st.rerun and returns None; on ConnectionError it
emits the connectivity error and returns None; otherwise it returns the
response.  For any other method the local variable response is never
assigned, so evaluating response.status_code raises UnboundLocalError,
which the except clause (ConnectionError only) does not catch: the
function raises instead of returning, modelled by Except.error.  The
request body does not affect control flow and is elided. -/
def make_authenticated_request (s : SessionState) (endpoint : String)
    (method : String) (outcome : HttpOutcome) : Except String DispatchOut :=
  if method = "GET" ∨ method = "POST" then
    match outcome with
    | .resp r =>
      if r.status_code = 401 then
        .ok { state := { s with authenticated := false
                                access_token := none
                                user_role := none
                                username := none
                                login_time := none }
              ret := none
              msg := some "Session expired. Please log in again."
              rerunSignal := true }
      else
        .ok { state := s, ret := some r, msg := none, rerunSignal := false }
    | .connError =>
      .ok { state := s
            ret := none
            msg := some "Cannot connect to the API server. Please make sure the FastAPI server is running."
            rerunSignal := false }
  else
    .error "UnboundLocalError: local variable response referenced before assignment"

/-- Outcome of the login POST in login_page: either a response with a
status code, the JSON fields access_token and role, and an optional detail
field, or an exception raised by the transport or by response.json(). -/
inductive LoginOutcome where
  | resp (status : Nat) (access_token role : String) (detail : Option String)
  | exn (msg : String)
deriving DecidableEq, Repr

/-- Result of one press of the Login button: the session state afterwards,
the st.success message (if any) and the st.error message (if any). -/
structure LoginResult where
  state : SessionState
  success_msg : Option String
  error_msg : Option String
deriving DecidableEq, Repr

/-- The Login button handler in login_page: empty username or password is
rejected up front; a 200 response populates authenticated, access_token,
user_role, username and login_time (chat_history and current_filters are
untouched); a non-200 response surfaces the detail field of the response
(default "Invalid credentials") and leaves the state unchanged; an
exception surfaces its text and leaves the state unchanged. -/
def login_attempt (s : SessionState) (username password : String)
    (outcome : LoginOutcome) (now : Int) : LoginResult :=
  if username = "" ∨ password = "" then
    { state := s, success_msg := none
      error_msg := some "Please enter both username and password" }
  else
    match outcome with
    | .resp status tok role detail =>
      if status = 200 then
        { state := { s with authenticated := true
                            access_token := some tok
                            user_role := some role
                            username := some username
                            login_time := some now }
          success_msg := some "Login successful!"
          error_msg := none }
      else
        { state := s, success_msg := none
          error_msg := some ("Login failed: " ++ detail.getD "Invalid credentials") }
    | .exn m =>
      { state := s, success_msg := none
        error_msg := some ("Login failed: " ++ m) }

/-- The logout button: every session_state key is deleted and the script
reruns, after which init_session_state recreates every key at its initial
value, so the state seen by the next render cycle is the fresh state. -/
def logout : SessionState → SessionState := fun _ => init_session_state

/-- Session states reachable from the fresh state by the session
operations: init_session_state, a press of the Login button (successful or
failed, any server outcome), logout, any dispatcher call that returns
(including the 401 reset), and the health-check revalidation in main /
login_page that sets authenticated when is_token_valid holds. -/
inductive Reachable : SessionState → Prop where
  | init : Reachable init_session_state
  | login (s : SessionState) (u p : String) (outcome : LoginOutcome) (now : Int) :
      Reachable s → Reachable (login_attempt s u p outcome now).state
  | logout_step (s : SessionState) : Reachable s → Reachable (logout s)
  | dispatch (s : SessionState) (endpoint method : String) (outcome : HttpOutcome)
      (out : DispatchOut) : Reachable s →
      make_authenticated_request s endpoint method outcome = .ok out →
      Reachable out.state
  | revalidate (s : SessionState) (now : Int) : Reachable s →
      is_token_valid s now = true → Reachable { s with authenticated := true }

/-- Session states reachable as in Reachable, with the environment
assumption that every successful login response carries a non-empty
access_token. -/
inductive ReachableNE : SessionState → Prop where
  | init : ReachableNE init_session_state
  | login (s : SessionState) (u p : String) (outcome : LoginOutcome) (now : Int) :
      ReachableNE s →
      (∀ tok role d, outcome = .resp 200 tok role d → tok ≠ "") →
      ReachableNE (login_attempt s u p outcome now).state
  | logout_step (s : SessionState) : ReachableNE s → ReachableNE (logout s)
  | dispatch (s : SessionState) (endpoint method : String) (outcome : HttpOutcome)
      (out : DispatchOut) : ReachableNE s →
      make_authenticated_request s endpoint method outcome = .ok out →
      ReachableNE out.state
  | revalidate (s : SessionState) (now : Int) : ReachableNE s →
      is_token_valid s now = true → ReachableNE { s with authenticated := true }

/-- What one iteration of the generate_multiple_daily_summaries loop
observes from its make_authenticated_request call: a returned value (a
response or None) or an exception caught by the bare except clause. -/
inductive IterOutcome where
  | ret (r : Option HttpResponse)
  | exn
deriving DecidableEq, Repr

/-- The success test of one iteration: `if response and
response.status_code == 200`, and any exception lands in the except
branch. -/
def iterSuccess : IterOutcome → Bool
  | .ret (some r) => r.status_code = 200
  | .ret none => false
  | .exn => false

/-- The counting loop of generate_multiple_daily_summaries: starting from
(0, 0), each iteration increments success_count on a 200 response and
error_count otherwise. -/
def tallySummaries (outcomes : List IterOutcome) : Nat × Nat :=
  outcomes.foldl
    (fun counts o =>
      if iterSuccess o then (counts.1 + 1, counts.2) else (counts.1, counts.2 + 1))
    (0, 0)

/-- generate_multiple_daily_summaries(days): one generate-daily request is
issued per day i ∈ range days (for the date now - (days - i)); the oracle
gives the outcome of the request of day i. -/
def generate_multiple_daily_summaries (days : Nat) (oracle : Nat → IterOutcome) :
    Nat × Nat :=
  tallySummaries ((List.range days).map oracle)

/-- Round a rational to the nearest integer, ties to even: the rounding
used by Python round() and by format specifier .1f. -/
def roundHalfEven (q : ℚ) : Int :=
  if q - ⌊q⌋ < 1 / 2 then ⌊q⌋
  else if q - ⌊q⌋ > 1 / 2 then ⌊q⌋ + 1
  else if ⌊q⌋ % 2 = 0 then ⌊q⌋ else ⌊q⌋ + 1

/-- Python round(x, 1) on a rational: round to one decimal place. -/
def pyRound1 (q : ℚ) : ℚ :=
  (roundHalfEven (10 * q) : ℚ) / 10

/-- The high-cancellation test of core_analytics_section:
stats["cancellation_rate"] > 25, applied to the cancellation_rate field of
the summary-stats response as the server sent it (no client-side
rounding). -/
def high_cancellation_warning_core (cancellation_rate : ℚ) : Bool :=
  cancellation_rate > 25

/-- The cancellation rate computed in executive_reports_section:
round((totals["Cancelled"] / total_calls) * 100, 1) when total_calls > 0,
else 0. -/
def cancel_rate_exec (cancelled total_calls : ℚ) : ℚ :=
  if total_calls > 0 then pyRound1 (cancelled / total_calls * 100) else 0

/-- The high-cancellation test of executive_reports_section:
cancel_rate > 25, applied to the rounded client-side rate. -/
def high_cancellation_warning_exec (cancelled total_calls : ℚ) : Bool :=
  cancel_rate_exec cancelled total_calls > 25

/-- One day entry of the time-breakdown response: the six outcome counts.
The Didnt Book column key contains an apostrophe in the JSON; it is named
didnt_book here. -/
structure DayMetrics where
  morning : Nat
  afternoon : Nat
  evening : Nat
  didnt_book : Nat
  cancelled : Nat
  other : Nat
deriving DecidableEq, Repr

/-- One row of the rendered breakdown table. -/
structure BreakdownRow where
  day : String
  morning : Nat
  afternoon : Nat
  evening : Nat
  didnt_book : Nat
  cancelled : Nat
  other : Nat
deriving DecidableEq, Repr

/-- The row built for one day of the breakdown dict. -/
def dayRow (d : String) (m : DayMetrics) : BreakdownRow :=
  { day := d, morning := m.morning, afternoon := m.afternoon
    evening := m.evening, didnt_book := m.didnt_book
    cancelled := m.cancelled, other := m.other }

/-- The row appended last, built from the totals object of the response
with day label **TOTALS**. -/
def totalsRow (t : DayMetrics) : BreakdownRow :=
  dayRow "**TOTALS**" t

/-- The df_data list built in core_analytics_section: one row per day of
the breakdown whose Morning + Afternoon + Evening is positive, then the
totals row. -/
def breakdown_table (breakdown : List (String × DayMetrics)) (totals : DayMetrics) :
    List BreakdownRow :=
  (breakdown.filter fun p => 0 < p.2.morning + p.2.afternoon + p.2.evening).map
    (fun p => dayRow p.1 p.2) ++ [totalsRow totals]

/-- The filters dict built in enhanced_analytics_section from the filter
widgets. -/
structure EnhancedFilters where
  date_from : String
  date_to : String
  clinic_location : Option String
  service_type : Option String
  category : Option String
  time_frame : String
deriving DecidableEq, Repr

/-- enhanced_analytics_section: each dropdown value is passed through
unless it is the sentinel All, which becomes None. -/
def build_enhanced_filters (date_from date_to clinic_location service_type
    category time_frame : String) : EnhancedFilters :=
  { date_from := date_from
    date_to := date_to
    clinic_location := if clinic_location ≠ "All" then some clinic_location else none
    service_type := if service_type ≠ "All" then some service_type else none
    category := if category ≠ "All" then some category else none
    time_frame := time_frame }

/-- The filters dict built in unique_questions_management. -/
structure UniqueQuestionFilters where
  min_frequency : Nat
  category : Option String
  business_impact : Option String
deriving DecidableEq, Repr

/-- unique_questions_management: category and business-impact dropdowns
pass through unless the value is All, which becomes None. -/
def build_unique_question_filters (min_freq_filter : Nat)
    (category_filter impact_filter : String) : UniqueQuestionFilters :=
  { min_frequency := min_freq_filter
    category := if category_filter ≠ "All" then some category_filter else none
    business_impact := if impact_filter ≠ "All" then some impact_filter else none }

/-- Python division, raising ZeroDivisionError on a zero denominator:
none models the raised error. -/
def pyDiv (a b : ℚ) : Option ℚ :=
  if b = 0 then none else some (a / b)

/-- The Uniqueness Rate cell of the service comparison table in
service_analytics_tab: when total_qa_pairs > 0 the cell shows
unique_questions_found / total_qa_pairs * 100 formatted to one decimal,
otherwise the literal 0%.  The displayed percentage is kept as a
rational; none would mean an unhandled ZeroDivisionError. -/
def service_uniqueness_cell (unique_found total_qa_pairs : Nat) : Option ℚ :=
  if (total_qa_pairs : ℚ) > 0 then
    (pyDiv unique_found total_qa_pairs).map fun r => pyRound1 (r * 100)
  else some 0

/-- The Uniqueness Rate metric of qa_analytics_section: when
database_a.total_qa_pairs > 0 it shows
round(total_unique_questions / total_qa_pairs * 100, 1), otherwise the
literal 0%. -/
def dashboard_uniqueness_cell (total_unique total_qa_pairs : Nat) : Option ℚ :=
  if (total_qa_pairs : ℚ) > 0 then
    (pyDiv total_unique total_qa_pairs).map fun r => pyRound1 (r * 100)
  else some 0

/-! ## Theorems -/

/-- Evaluation of pyRound1 below the rounding midpoint. -/
lemma pyRound1_eq (q : ℚ) (n : Int) (h1 : (n : ℚ) ≤ 10 * q)
    (h2 : 10 * q < n + 1) (h3 : 10 * q - n < 1 / 2) :
    pyRound1 q = (n : ℚ) / 10 := by
  have hf : ⌊10 * q⌋ = n := Int.floor_eq_iff.mpr ⟨h1, by exact_mod_cast h2⟩
  simp only [pyRound1, roundHalfEven, hf]
  rw [if_pos h3]

/-- Claim C2, counterexample: a session with a non-empty token whose age is
exactly 23 hours (login_time 0, now 23 * 3600) is accepted by
is_token_valid, although its age is not strictly less than 23 hours; the
claim says such a session is treated as invalid. -/
theorem C2_counterexample :
    is_token_valid
      { authenticated := false, user_role := none, access_token := some "t",
        chat_history := [], username := none, login_time := some 0,
        current_filters := [] } (23 * 3600) = true ∧
    ¬ ((23 * 3600 : Int) - 0 < 23 * 3600) := by
  decide

/-- Claim C2 (amended): is_token_valid returns true iff the access token
is present and non-empty, the login time is recorded, and now minus the
login time is at most 23 hours; a session aged exactly 23 hours is still
treated as valid, and one aged more than 23 hours is invalid. -/
theorem C2_token_validity (s : SessionState) (now : Int) :
    is_token_valid s now = true ↔
      (∃ tok, s.access_token = some tok ∧ tok ≠ "") ∧
      (∃ lt, s.login_time = some lt ∧ now - lt ≤ 23 * 3600) := by
  cases hlt : s.login_time with
  | none => simp [is_token_valid, hlt]
  | some lt =>
    cases hat : s.access_token with
    | none => simp [is_token_valid, hlt, hat, tokenTruthy]
    | some tok =>
      by_cases htok : tok = "" <;>
        simp [is_token_valid, hlt, hat, tokenTruthy, htok]

/-- Witness for C2_token_validity at a concrete session. -/
theorem C2_token_validity_witness :
    is_token_valid
      { authenticated := true, user_role := some "manager",
        access_token := some "t", chat_history := [], username := some "u",
        login_time := some 5, current_filters := [] } 10 = true :=
  (C2_token_validity _ 10).mpr ⟨⟨"t", rfl, by decide⟩, ⟨5, rfl, by decide⟩⟩

/-- The sentinel translation used by every filter dropdown. -/
lemma allSentinel (x : String) :
    (x = "All" → (if x ≠ "All" then some x else none) = none) ∧
    (x ≠ "All" → (if x ≠ "All" then some x else none) = some x) ∧
    (if x ≠ "All" then some x else none) ≠ some "All" := by
  by_cases h : x = "All" <;> simp [h]

/-- Claim C4: in both filter builders, a dropdown value of All becomes
None in the FilterSet (never the literal All), and any other value is
passed through unchanged. -/
theorem C4_all_sentinel (df dt loc svc cat tf : String) (minf : Nat)
    (ucat uimp : String) :
    ((loc = "All" → (build_enhanced_filters df dt loc svc cat tf).clinic_location = none) ∧
     (loc ≠ "All" → (build_enhanced_filters df dt loc svc cat tf).clinic_location = some loc) ∧
     (build_enhanced_filters df dt loc svc cat tf).clinic_location ≠ some "All") ∧
    ((svc = "All" → (build_enhanced_filters df dt loc svc cat tf).service_type = none) ∧
     (svc ≠ "All" → (build_enhanced_filters df dt loc svc cat tf).service_type = some svc) ∧
     (build_enhanced_filters df dt loc svc cat tf).service_type ≠ some "All") ∧
    ((cat = "All" → (build_enhanced_filters df dt loc svc cat tf).category = none) ∧
     (cat ≠ "All" → (build_enhanced_filters df dt loc svc cat tf).category = some cat) ∧
     (build_enhanced_filters df dt loc svc cat tf).category ≠ some "All") ∧
    ((ucat = "All" → (build_unique_question_filters minf ucat uimp).category = none) ∧
     (ucat ≠ "All" → (build_unique_question_filters minf ucat uimp).category = some ucat) ∧
     (build_unique_question_filters minf ucat uimp).category ≠ some "All") ∧
    ((uimp = "All" → (build_unique_question_filters minf ucat uimp).business_impact = none) ∧
     (uimp ≠ "All" → (build_unique_question_filters minf ucat uimp).business_impact = some uimp) ∧
     (build_unique_question_filters minf ucat uimp).business_impact ≠ some "All") :=
  ⟨allSentinel loc, allSentinel svc, allSentinel cat, allSentinel ucat, allSentinel uimp⟩

/-- Witness for C4_all_sentinel: All maps to None, another value passes
through. -/
theorem C4_all_sentinel_witness :
    (build_enhanced_filters "2025-01-01" "2025-01-31" "All" "X-Ray" "All" "week").clinic_location = none ∧
    (build_enhanced_filters "2025-01-01" "2025-01-31" "All" "X-Ray" "All" "week").service_type = some "X-Ray" ∧
    (build_unique_question_filters 5 "All" "high").category = none ∧
    (build_unique_question_filters 5 "All" "high").business_impact = some "high" :=
  ⟨(C4_all_sentinel "2025-01-01" "2025-01-31" "All" "X-Ray" "All" "week" 5 "All" "high").1.1 rfl,
   (C4_all_sentinel "2025-01-01" "2025-01-31" "All" "X-Ray" "All" "week" 5 "All" "high").2.1.2.1 (by decide),
   (C4_all_sentinel "2025-01-01" "2025-01-31" "All" "X-Ray" "All" "week" 5 "All" "high").2.2.2.1.1 rfl,
   (C4_all_sentinel "2025-01-01" "2025-01-31" "All" "X-Ray" "All" "week" 5 "All" "high").2.2.2.2.2.1 (by decide)⟩

/-- Claim C10: both uniqueness-rate computations guard their division, so
neither ever raises ZeroDivisionError (the cell is never none), and a zero
total shows the literal 0 percent; a positive total shows the rounded
ratio. -/
theorem C10_division_guard (u t : Nat) :
    service_uniqueness_cell u t ≠ none ∧
    (t = 0 → service_uniqueness_cell u t = some 0) ∧
    (0 < t → service_uniqueness_cell u t = some (pyRound1 ((u : ℚ) / t * 100))) ∧
    dashboard_uniqueness_cell u t ≠ none ∧
    (t = 0 → dashboard_uniqueness_cell u t = some 0) ∧
    (0 < t → dashboard_uniqueness_cell u t = some (pyRound1 ((u : ℚ) / t * 100))) := by
  by_cases ht : t = 0
  · subst ht
    simp [service_uniqueness_cell, dashboard_uniqueness_cell]
  · have htq : (0 : ℚ) < t := by positivity
    have htq' : (t : ℚ) ≠ 0 := ne_of_gt htq
    refine ⟨?_, fun h => absurd h ht, fun _ => ?_, ?_, fun h => absurd h ht, fun _ => ?_⟩ <;>
      simp [service_uniqueness_cell, dashboard_uniqueness_cell, pyDiv, htq, htq']

/-- Witness for C10_division_guard: the zero-total branches. -/
theorem C10_division_guard_witness :
    service_uniqueness_cell 3 0 = some 0 ∧
    dashboard_uniqueness_cell 7 0 = some 0 ∧
    service_uniqueness_cell 1 4 = some 25 :=
  ⟨(C10_division_guard 3 0).2.1 rfl,
   (C10_division_guard 7 0).2.2.2.2.1 rfl,
   by
    rw [(C10_division_guard 1 4).2.2.1 (by decide)]
    rw [pyRound1_eq _ 250 (by norm_num) (by norm_num) (by norm_num)]
    norm_num⟩

/-- Claim C7, counterexample: a summary-stats cancellation_rate of
2504/100 = 25.04 rounds to exactly 25.0 at one decimal, yet the
core-analytics warning (which compares the unrounded server value) is
shown, because 25.04 > 25. -/
theorem C7_counterexample :
    pyRound1 ((2504 : ℚ) / 100) = 25 ∧
    high_cancellation_warning_core ((2504 : ℚ) / 100) = true := by
  constructor
  · rw [pyRound1_eq _ 250 (by norm_num) (by norm_num) (by norm_num)]
    norm_num
  · simp only [high_cancellation_warning_core, gt_iff_lt, decide_eq_true_eq]
    norm_num

/-- Claim C7 (amended): both warning sites use a strictly-greater-than-25
test.  The executive-report site applies it to the client-side rounded
rate, so a rate that rounds to exactly 25.0 does not trigger there; the
core-analytics site applies it to the server-provided cancellation_rate
unrounded, so the warning is shown exactly when that value exceeds 25,
even when it rounds to 25.0. -/
theorem C7_threshold (rate cancelled total_calls : ℚ) :
    (high_cancellation_warning_core rate = true ↔ 25 < rate) ∧
    (0 < total_calls → pyRound1 (cancelled / total_calls * 100) = 25 →
      high_cancellation_warning_exec cancelled total_calls = false) := by
  constructor
  · simp [high_cancellation_warning_core]
  · intro ht h
    unfold high_cancellation_warning_exec cancel_rate_exec
    rw [if_pos ht, h]
    exact decide_eq_false (lt_irrefl 25)

/-- Witness for C7_threshold: a rate of 30 triggers the core warning; a
breakdown of 1 cancellation out of 4 calls (exactly 25 percent) does not
trigger the executive warning. -/
theorem C7_threshold_witness :
    high_cancellation_warning_core 30 = true ∧
    high_cancellation_warning_exec 1 4 = false :=
  ⟨(C7_threshold 30 1 4).1.mpr (by norm_num),
   (C7_threshold 30 1 4).2 (by norm_num)
     (by rw [pyRound1_eq _ 250 (by norm_num) (by norm_num) (by norm_num)]
         norm_num)⟩

/-- The behaviour of the dispatcher on a 401 from an authenticated call,
as the code implements it: no data returned, the session-expired error and
rerun signalled, the five auth fields reset to their initial values,
chat_history and current_filters untouched; the resulting state equals the
fresh state exactly when those two were already empty. -/
def Reset401Spec (s : SessionState) (endpoint method : String) : Prop :=
  ∃ out, make_authenticated_request s endpoint method (.resp ⟨401⟩) = .ok out ∧
    out.ret = none ∧
    out.msg = some "Session expired. Please log in again." ∧
    out.rerunSignal = true ∧
    out.state.authenticated = init_session_state.authenticated ∧
    out.state.access_token = init_session_state.access_token ∧
    out.state.user_role = init_session_state.user_role ∧
    out.state.username = init_session_state.username ∧
    out.state.login_time = init_session_state.login_time ∧
    out.state.chat_history = s.chat_history ∧
    out.state.current_filters = s.current_filters ∧
    (out.state = init_session_state ↔ s.chat_history = [] ∧ s.current_filters = [])

/-- Claim C1 (amended): a 401 on any endpoint and either method resets the
authentication fields to their freshly-initialized values and returns no
data, but leaves chat_history and current_filters unchanged, so the state
equals the fresh init_session_state state only when both were already
empty. -/
theorem C1_reset_on_401 (s : SessionState) (endpoint method : String)
    (h : method = "GET" ∨ method = "POST") : Reset401Spec s endpoint method := by
  unfold Reset401Spec make_authenticated_request
  rw [if_pos h]
  refine ⟨_, rfl, rfl, rfl, rfl, rfl, rfl, rfl, rfl, rfl, rfl, rfl, ?_⟩
  obtain ⟨a, ur, tk, ch, un, lt, cf⟩ := s
  simp [init_session_state]

/-- Witness for C1_reset_on_401 at the fresh state and a GET. -/
theorem C1_reset_on_401_witness : Reset401Spec init_session_state "/health" "GET" :=
  C1_reset_on_401 init_session_state "/health" "GET" (Or.inl rfl)

/-- Claim C1, counterexample: a session with a non-empty chat transcript
receives a 401; the dispatcher returns no data but the resulting state is
not the freshly-initialized state, because chat_history survives the
reset. -/
theorem C1_counterexample :
    make_authenticated_request
      { authenticated := true, user_role := some "manager",
        access_token := some "tok", chat_history := [("user", "hello")],
        username := some "u", login_time := some 0, current_filters := [] }
      "/api/analytics/time-breakdown" "POST" (.resp ⟨401⟩) =
      .ok { state := { authenticated := false, user_role := none,
                       access_token := none,
                       chat_history := [("user", "hello")], username := none,
                       login_time := none, current_filters := [] },
            ret := none,
            msg := some "Session expired. Please log in again.",
            rerunSignal := true } ∧
    ({ authenticated := false, user_role := none, access_token := none,
       chat_history := [("user", "hello")], username := none,
       login_time := none, current_filters := [] } : SessionState) ≠
      init_session_state :=
  ⟨rfl, by decide⟩

/-- Claim C8: the dispatcher is total exactly for methods GET and POST —
for those it always returns (a response or None); for any other method the
local variable response is never assigned and the call raises instead of
returning. -/
theorem C8_method_totality (s : SessionState) (endpoint method : String)
    (outcome : HttpOutcome) :
    ((method = "GET" ∨ method = "POST") →
      ∃ out, make_authenticated_request s endpoint method outcome = .ok out) ∧
    (method ≠ "GET" → method ≠ "POST" →
      make_authenticated_request s endpoint method outcome =
        .error "UnboundLocalError: local variable response referenced before assignment") := by
  constructor
  · intro h
    cases outcome with
    | resp r =>
      by_cases h4 : r.status_code = 401
      · refine ⟨{ state := { s with authenticated := false
                                    access_token := none
                                    user_role := none
                                    username := none
                                    login_time := none }
                  ret := none
                  msg := some "Session expired. Please log in again."
                  rerunSignal := true }, ?_⟩
        simp [make_authenticated_request, h, h4]
      · refine ⟨{ state := s, ret := some r, msg := none, rerunSignal := false }, ?_⟩
        simp [make_authenticated_request, h, h4]
    | connError =>
      refine ⟨{ state := s
                ret := none
                msg := some "Cannot connect to the API server. Please make sure the FastAPI server is running."
                rerunSignal := false }, ?_⟩
      simp [make_authenticated_request, h]
  · intro h1 h2
    simp [make_authenticated_request, h1, h2]

/-- Witness for C8_method_totality: a GET returns, a PUT raises. -/
theorem C8_method_totality_witness :
    (∃ out, make_authenticated_request init_session_state "/health" "GET"
        HttpOutcome.connError = .ok out) ∧
    make_authenticated_request init_session_state "/health" "PUT"
        HttpOutcome.connError =
      .error "UnboundLocalError: local variable response referenced before assignment" :=
  ⟨(C8_method_totality init_session_state "/health" "GET" HttpOutcome.connError).1
     (Or.inl rfl),
   (C8_method_totality init_session_state "/health" "PUT" HttpOutcome.connError).2
     (by decide) (by decide)⟩

/-- Claim C5: with non-empty credentials, a 200 response populates the
session with the returned token and role, the given username, the current
timestamp and authenticated true; a non-200 response surfaces the server
detail (within the Login failed message) and changes no session field; a
transport exception surfaces its text and changes no session field. -/
theorem C5_login_behaviour (s : SessionState) (u p : String)
    (outcome : LoginOutcome) (now : Int) (hu : u ≠ "") (hp : p ≠ "") :
    (∀ tok role d, outcome = .resp 200 tok role d →
      login_attempt s u p outcome now =
        { state := { s with authenticated := true
                            access_token := some tok
                            user_role := some role
                            username := some u
                            login_time := some now }
          success_msg := some "Login successful!"
          error_msg := none }) ∧
    (∀ status tok role d, outcome = .resp status tok role d → status ≠ 200 →
      (login_attempt s u p outcome now).state = s ∧
      (login_attempt s u p outcome now).error_msg =
        some ("Login failed: " ++ d.getD "Invalid credentials")) ∧
    (∀ m, outcome = .exn m →
      (login_attempt s u p outcome now).state = s ∧
      (login_attempt s u p outcome now).error_msg =
        some ("Login failed: " ++ m)) := by
  have hup : ¬ (u = "" ∨ p = "") := by tauto
  refine ⟨?_, ?_, ?_⟩
  · rintro tok role d rfl
    simp [login_attempt, hup]
  · rintro status tok role d rfl hst
    constructor <;> simp [login_attempt, hup, hst]
  · rintro m rfl
    constructor <;> simp [login_attempt, hup]

/-- Witness for C5_login_behaviour: a successful login from the fresh
state. -/
theorem C5_login_behaviour_witness :
    login_attempt init_session_state "alice" "pw"
        (.resp 200 "tok" "manager" none) 7 =
      { state := { init_session_state with
                     authenticated := true
                     access_token := some "tok"
                     user_role := some "manager"
                     username := some "alice"
                     login_time := some 7 }
        success_msg := some "Login successful!"
        error_msg := none } :=
  (C5_login_behaviour init_session_state "alice" "pw"
      (.resp 200 "tok" "manager" none) 7 (by decide) (by decide)).1
    "tok" "manager" none rfl

/-- The counting loop from any starting pair. -/
lemma tallySummaries_go (l : List IterOutcome) (a b : Nat) :
    l.foldl
      (fun counts o =>
        if iterSuccess o then (counts.1 + 1, counts.2) else (counts.1, counts.2 + 1))
      (a, b) =
      (a + l.countP iterSuccess, b + l.countP fun o => !iterSuccess o) := by
  induction l generalizing a b with
  | nil => simp
  | cons x xs ih =>
    by_cases h : iterSuccess x <;> simp [List.countP_cons, h, ih] <;> omega

/-- Failures are exactly the iterations that are not successes. -/
lemma countP_not_success (l : List IterOutcome) :
    (l.countP fun o => !iterSuccess o) = l.length - l.countP iterSuccess := by
  induction l with
  | nil => simp
  | cons x xs ih =>
    have hb := List.countP_le_length (p := iterSuccess) (l := xs)
    by_cases h : iterSuccess x <;> simp [List.countP_cons, h, ih] <;> omega

/-- Claim C6: the batch generation over N days issues one request per day;
with K successes (responses present with status 200) the report shows
success_count = K and error_count = N - K, and the two always sum to N. -/
theorem C6_batch_counts (days : Nat) (oracle : Nat → IterOutcome) :
    (generate_multiple_daily_summaries days oracle).1 =
      ((List.range days).map oracle).countP iterSuccess ∧
    (generate_multiple_daily_summaries days oracle).2 =
      days - ((List.range days).map oracle).countP iterSuccess ∧
    (generate_multiple_daily_summaries days oracle).1 +
      (generate_multiple_daily_summaries days oracle).2 = days := by
  have hc : ((List.range days).map oracle).countP iterSuccess ≤ days := by
    have := List.countP_le_length (p := iterSuccess)
      (l := (List.range days).map oracle)
    simpa using this
  simp only [List.countP_map] at hc
  unfold generate_multiple_daily_summaries tallySummaries
  rw [tallySummaries_go, countP_not_success]
  refine ⟨by simp, by simp, ?_⟩
  simp
  omega

/-- Rows are determined by their day label and metrics. -/
lemma dayRow_inj (d d' : String) (m m' : DayMetrics) :
    dayRow d m = dayRow d' m' ↔ d = d' ∧ m = m' := by
  cases m
  cases m'
  simp [dayRow, DayMetrics.mk.injEq, BreakdownRow.mk.injEq]

/-- Claim C9: a day row appears in the rendered breakdown table iff that
day is in the breakdown and its Morning + Afternoon + Evening sum is
positive — a day with calls only in the Didnt Book, Cancelled or Other
columns is omitted — while the appended TOTALS row is always the last row
and is built from the full totals object. -/
theorem C9_breakdown_rows (b : List (String × DayMetrics)) (t : DayMetrics)
    (d : String) (m : DayMetrics) (hd : d ≠ "**TOTALS**") :
    (dayRow d m ∈ breakdown_table b t ↔
      (d, m) ∈ b ∧ 0 < m.morning + m.afternoon + m.evening) ∧
    (breakdown_table b t).getLast? = some (totalsRow t) := by
  constructor
  · constructor
    · intro hmem
      rcases List.mem_append.mp hmem with h1 | h2
      · rcases List.mem_map.mp h1 with ⟨q, hq, he⟩
        rcases List.mem_filter.mp hq with ⟨hqb, hcond⟩
        obtain ⟨hd', hm⟩ := (dayRow_inj _ _ _ _).mp he
        have hqd : q = (d, m) := by
          cases q
          simp only [Prod.mk.injEq]
          exact ⟨hd', hm⟩
        subst hqd
        exact ⟨hqb, by simpa using hcond⟩
      · have heq : dayRow d m = totalsRow t := by simpa using h2
        have : d = "**TOTALS**" := congrArg BreakdownRow.day heq
        exact absurd this hd
    · rintro ⟨hmem, hpos⟩
      apply List.mem_append_left
      exact List.mem_map.mpr
        ⟨(d, m), List.mem_filter.mpr ⟨hmem, by simpa using hpos⟩, rfl⟩
  · exact List.getLast?_concat _

/-- Witness for C9_breakdown_rows: a morning-only day is listed. -/
theorem C9_breakdown_rows_witness :
    dayRow "Mon" ⟨1, 0, 0, 0, 0, 0⟩ ∈
      breakdown_table
        [("Mon", ⟨1, 0, 0, 0, 0, 0⟩), ("Tue", ⟨0, 0, 0, 2, 3, 4⟩)]
        ⟨1, 0, 0, 2, 3, 4⟩ :=
  ((C9_breakdown_rows
      [("Mon", ⟨1, 0, 0, 0, 0, 0⟩), ("Tue", ⟨0, 0, 0, 2, 3, 4⟩)]
      ⟨1, 0, 0, 2, 3, 4⟩ "Mon" ⟨1, 0, 0, 0, 0, 0⟩ (by decide)).1).mpr
    ⟨List.mem_cons_self _ _, by decide⟩

/-- A press of the Login button either leaves the state unchanged or, on a
200 response, populates it with the returned token and role. -/
lemma login_attempt_state (s : SessionState) (u p : String)
    (o : LoginOutcome) (now : Int) :
    (login_attempt s u p o now).state = s ∨
    ∃ tok role d, o = .resp 200 tok role d ∧
      (login_attempt s u p o now).state =
        { s with authenticated := true
                 access_token := some tok
                 user_role := some role
                 username := some u
                 login_time := some now } := by
  unfold login_attempt
  by_cases hup : u = "" ∨ p = ""
  · rw [if_pos hup]
    exact Or.inl rfl
  · rw [if_neg hup]
    cases o with
    | resp status tok role d =>
      dsimp only
      by_cases hs : status = 200
      · subst hs
        rw [if_pos rfl]
        exact Or.inr ⟨tok, role, d, rfl, rfl⟩
      · rw [if_neg hs]
        exact Or.inl rfl
    | exn m => exact Or.inl rfl

/-- A dispatcher call that returns leaves the state unchanged or (on a
401) clears the five authentication fields. -/
lemma dispatch_state (s : SessionState) (endpoint method : String)
    (outcome : HttpOutcome) (out : DispatchOut)
    (he : make_authenticated_request s endpoint method outcome = .ok out) :
    out.state = s ∨
    out.state = { s with authenticated := false
                         access_token := none
                         user_role := none
                         username := none
                         login_time := none } := by
  unfold make_authenticated_request at he
  by_cases hm : method = "GET" ∨ method = "POST"
  · rw [if_pos hm] at he
    cases outcome with
    | resp r =>
      dsimp only at he
      by_cases h4 : r.status_code = 401
      · rw [if_pos h4] at he
        injection he with he
        subst he
        exact Or.inr rfl
      · rw [if_neg h4] at he
        injection he with he
        subst he
        exact Or.inl rfl
    | connError =>
      dsimp only at he
      injection he with he
      subst he
      exact Or.inl rfl
  · rw [if_neg hm] at he
    exact absurd he (by simp)

/-- A valid token is truthy and the login time is recorded. -/
lemma is_token_valid_fields (s : SessionState) (now : Int)
    (h : is_token_valid s now = true) :
    tokenTruthy s.access_token = true ∧ s.login_time ≠ none := by
  unfold is_token_valid at h
  cases hlt : s.login_time with
  | none => rw [hlt] at h; cases h
  | some lt =>
    rw [hlt] at h
    dsimp only at h
    by_cases htr : tokenTruthy s.access_token
    · exact ⟨htr, by simp [hlt]⟩
    · rw [if_pos (by simpa using htr)] at h
      cases h

/-- A truthy token slot is not None. -/
lemma tokenTruthy_ne_none (t : Option String) (h : tokenTruthy t = true) :
    t ≠ none := by
  cases t with
  | none => cases h
  | some tok => simp

/-- Every reachable authenticated state has its token and login time
set. -/
lemma reachable_auth_fields (s : SessionState) (h : Reachable s) :
    s.authenticated = true → s.access_token ≠ none ∧ s.login_time ≠ none := by
  induction h with
  | init => intro ha; cases ha
  | login s u p o now _ ih =>
    rcases login_attempt_state s u p o now with hs | ⟨tok, role, d, _, hs⟩
    · rw [hs]; exact ih
    · rw [hs]; intro _; exact ⟨by simp, by simp⟩
  | logout_step s _ _ =>
    intro ha; cases ha
  | dispatch s ep m o out _ he ih =>
    rcases dispatch_state s ep m o out he with hs | hs
    · rw [hs]; exact ih
    · rw [hs]; intro ha; cases ha
  | revalidate s now _ hv _ =>
    intro _
    obtain ⟨h1, h2⟩ := is_token_valid_fields s now hv
    exact ⟨tokenTruthy_ne_none _ h1, h2⟩

/-- Under non-empty server tokens, every reachable authenticated state has
a truthy (non-empty) token and its login time set. -/
lemma reachableNE_auth_fields (s : SessionState) (h : ReachableNE s) :
    s.authenticated = true →
    tokenTruthy s.access_token = true ∧ s.login_time ≠ none := by
  induction h with
  | init => intro ha; cases ha
  | login s u p o now _ hguard ih =>
    rcases login_attempt_state s u p o now with hs | ⟨tok, role, d, ho, hs⟩
    · rw [hs]; exact ih
    · rw [hs]
      intro _
      refine ⟨?_, by simp⟩
      have htok : tok ≠ "" := hguard tok role d ho
      simpa [tokenTruthy] using htok
  | logout_step s _ _ =>
    intro ha; cases ha
  | dispatch s ep m o out _ he ih =>
    rcases dispatch_state s ep m o out he with hs | hs
    · rw [hs]; exact ih
    · rw [hs]; intro ha; cases ha
  | revalidate s now _ hv _ =>
    intro _
    exact is_token_valid_fields s now hv

/-- Claim C3 (amended): in every state reachable by the session operations,
authenticated true implies the access token and login time are set (not
None); the token is moreover non-empty provided every successful login
response carried a non-empty access_token. -/
theorem C3_auth_invariant :
    (∀ s, Reachable s → s.authenticated = true →
      s.access_token ≠ none ∧ s.login_time ≠ none) ∧
    (∀ s, ReachableNE s → s.authenticated = true →
      tokenTruthy s.access_token = true ∧ s.login_time ≠ none) :=
  ⟨reachable_auth_fields, reachableNE_auth_fields⟩

/-- Witness for C3_auth_invariant at the state reached by one successful
login with a non-empty token. -/
theorem C3_auth_invariant_witness :
    tokenTruthy (login_attempt init_session_state "alice" "pw"
        (.resp 200 "tok" "manager" none) 7).state.access_token = true ∧
    (login_attempt init_session_state "alice" "pw"
        (.resp 200 "tok" "manager" none) 7).state.login_time ≠ none :=
  C3_auth_invariant.2 _
    (ReachableNE.login init_session_state "alice" "pw"
      (.resp 200 "tok" "manager" none) 7 ReachableNE.init
      (fun tok role d he => by cases he; decide))
    (by decide)

/-- Claim C3, counterexample: a successful login whose response carries an
empty access_token reaches a state that is authenticated with an empty
(hence not non-empty) token, refuting the claim as stated. -/
theorem C3_counterexample :
    Reachable (login_attempt init_session_state "alice" "pw"
        (.resp 200 "" "manager" none) 0).state ∧
    (login_attempt init_session_state "alice" "pw"
        (.resp 200 "" "manager" none) 0).state.authenticated = true ∧
    (login_attempt init_session_state "alice" "pw"
        (.resp 200 "" "manager" none) 0).state.access_token = some "" :=
  ⟨Reachable.login init_session_state "alice" "pw"
      (.resp 200 "" "manager" none) 0 Reachable.init,
   by decide, by decide⟩

end MedicalAnalytics
